import Mathlib

/-!
Verification development for the vibecon container tool.

We shallowly embed the parts of the code base that the specification's
claims are about:

* `MountParser.parse_mount` and its three helpers from
  `vibecon/mount_parser.py` (mount validation and compilation to engine
  arguments);
* `_generate_container_name` from `vibecon/cli.py` (container identity,
  which uses an MD5 digest, implemented here from the MD5 algorithm the
  Python `hashlib.md5` realises);
* `ensure_container_running`, `start_container`, `restart_container` and
  the inspect helpers from `vibecon/docker_manager.py`, embedded as a
  state-and-trace transformer over an abstract engine state;
* `_get_host_timezone` from `vibecon/docker_manager.py`, embedded as a
  function of an explicit host environment.

Ambient process state (environment variables, the filesystem, the engine)
is passed as explicit parameters.
-/

namespace Vibecon

/-! ## Python string helpers -/

/-- Python truthiness of an optional string: `None` and `""` are falsy. -/
def truthy : Option String → Bool
  | none => false
  | some s => s ≠ ""

/-- Python whitespace characters relevant to `str.strip()`. -/
def pyIsSpace (c : Char) : Bool :=
  c = ' ' || c = '\t' || c = '\n' || c = '\x0b' || c = '\x0c' || c = '\r'

/-- Python `str.strip()` (no argument): drop whitespace from both ends. -/
def pyStrip (s : String) : String :=
  String.mk (((s.data.dropWhile pyIsSpace).reverse.dropWhile pyIsSpace).reverse)

/-- Python `str.lstrip(c)` for a single strip character. -/
def pyLstrip (c : Char) (s : String) : String :=
  String.mk (s.data.dropWhile (· = c))

/-- One character of Python `str.replace(a, b)` for single characters. -/
def pyChrRepl (a b : Char) (x : Char) : Char :=
  if x = a then b else x

/-- Python `str.replace(a, b)` for single characters. -/
def pyReplaceChar (a b : Char) (s : String) : String :=
  String.mk (s.data.map (pyChrRepl a b))

/-- ASCII case of Python `str.lower()` applied to one character. -/
def pyCharLower (c : Char) : Char :=
  if 65 ≤ c.toNat ∧ c.toNat ≤ 90 then Char.ofNat (c.toNat + 32) else c

/-- ASCII case of Python `str.lower()`. -/
def pyLower (s : String) : String :=
  String.mk (s.data.map pyCharLower)

/-- Python `sep.join(parts)`. -/
def pyJoinSep (sep : String) : List String → String
  | [] => ""
  | [x] => x
  | x :: y :: xs => x ++ sep ++ pyJoinSep sep (y :: xs)

/-- `s.startswith(p)`, via the character lists. -/
def strStartsWith (s p : String) : Bool :=
  p.data.isPrefixOf s.data

/-- `s.endswith(p)`, via the character lists. -/
def strEndsWith (s p : String) : Bool :=
  p.data.reverse.isPrefixOf s.data.reverse

/-- `s[:n]`, via the character list. -/
def strTake (s : String) (n : Nat) : String :=
  String.mk (s.data.take n)

/-- Splitting loop of Python `str.split(c)` over the character list. -/
def splitOnCharAux (c : Char) : List Char → List Char → List (List Char)
  | [], acc => [acc.reverse]
  | x :: xs, acc =>
    if x = c then acc.reverse :: splitOnCharAux c xs []
    else splitOnCharAux c xs (x :: acc)

/-- Python `str.split(c)` for a one-character separator. -/
def pySplitChar (c : Char) (s : String) : List String :=
  (splitOnCharAux c s.data []).map String.mk

/-! ## MD5 (the algorithm behind Python `hashlib.md5`)

Bytes and 32-bit words are plain `Nat` kept below `2 ^ 8` resp. `2 ^ 32`
by explicit reduction. -/

/-- `2 ^ 32`. -/
def M32 : Nat := 4294967296

/-- `2 ^ 32 - 1`, the 32-bit all-ones mask. -/
def mask32 : Nat := 4294967295

/-- 32-bit left rotation. -/
def rotl32 (x n : Nat) : Nat := ((x <<< n) % M32) ||| (x >>> (32 - n))

/-- The MD5 sine-derived constant table `K`. -/
def md5K : List Nat :=
  [0xd76aa478, 0xe8c7b756, 0x242070db, 0xc1bdceee,
   0xf57c0faf, 0x4787c62a, 0xa8304613, 0xfd469501,
   0x698098d8, 0x8b44f7af, 0xffff5bb1, 0x895cd7be,
   0x6b901122, 0xfd987193, 0xa679438e, 0x49b40821,
   0xf61e2562, 0xc040b340, 0x265e5a51, 0xe9b6c7aa,
   0xd62f105d, 0x02441453, 0xd8a1e681, 0xe7d3fbc8,
   0x21e1cde6, 0xc33707d6, 0xf4d50d87, 0x455a14ed,
   0xa9e3e905, 0xfcefa3f8, 0x676f02d9, 0x8d2a4c8a,
   0xfffa3942, 0x8771f681, 0x6d9d6122, 0xfde5380c,
   0xa4beea44, 0x4bdecfa9, 0xf6bb4b60, 0xbebfbc70,
   0x289b7ec6, 0xeaa127fa, 0xd4ef3085, 0x04881d05,
   0xd9d4d039, 0xe6db99e5, 0x1fa27cf8, 0xc4ac5665,
   0xf4292244, 0x432aff97, 0xab9423a7, 0xfc93a039,
   0x655b59c3, 0x8f0ccc92, 0xffeff47d, 0x85845dd1,
   0x6fa87e4f, 0xfe2ce6e0, 0xa3014314, 0x4e0811a1,
   0xf7537e82, 0xbd3af235, 0x2ad7d2bb, 0xeb86d391]

/-- The MD5 per-round left-rotation amounts. -/
def md5S : List Nat :=
  [7, 12, 17, 22, 7, 12, 17, 22, 7, 12, 17, 22, 7, 12, 17, 22,
   5, 9, 14, 20, 5, 9, 14, 20, 5, 9, 14, 20, 5, 9, 14, 20,
   4, 11, 16, 23, 4, 11, 16, 23, 4, 11, 16, 23, 4, 11, 16, 23,
   6, 10, 15, 21, 6, 10, 15, 21, 6, 10, 15, 21, 6, 10, 15, 21]

/-- UTF-8 encoding of one character, as byte values (Python `str.encode`). -/
def utf8EncodeCharNat (c : Char) : List Nat :=
  let n := c.toNat
  if n < 128 then [n]
  else if n < 2048 then [192 ||| (n >>> 6), 128 ||| (n &&& 63)]
  else if n < 65536 then
    [224 ||| (n >>> 12), 128 ||| ((n >>> 6) &&& 63), 128 ||| (n &&& 63)]
  else
    [240 ||| (n >>> 18), 128 ||| ((n >>> 12) &&& 63),
     128 ||| ((n >>> 6) &&& 63), 128 ||| (n &&& 63)]

/-- UTF-8 bytes of a string. -/
def strBytes (s : String) : List Nat :=
  (s.data.map utf8EncodeCharNat).flatten

/-- The 64-bit little-endian byte encoding of a length in bits. -/
def le64Bytes (n : Nat) : List Nat :=
  (List.range 8).map (fun i => (n >>> (8 * i)) &&& 255)

/-- MD5 padding: append `0x80`, zero bytes to 56 mod 64, then the bit
length as 64-bit little-endian. -/
def md5Pad (msg : List Nat) : List Nat :=
  let zeros := (120 - (msg.length + 1) % 64) % 64
  msg ++ [128] ++ List.replicate zeros 0 ++ le64Bytes ((msg.length * 8) % (2 ^ 64))

/-- Group bytes into 32-bit little-endian words. -/
def bytesToWords : List Nat → List Nat
  | b0 :: b1 :: b2 :: b3 :: rest =>
    (b0 ||| (b1 <<< 8) ||| (b2 <<< 16) ||| (b3 <<< 24)) :: bytesToWords rest
  | _ => []

/-- Split a byte list into 64-byte chunks, structurally via a fuel bound
(each step consumes at least one byte, so `fuel = bytes.length` suffices). -/
def chunks64Aux : Nat → List Nat → List (List Nat)
  | 0, _ => []
  | _, [] => []
  | fuel + 1, bytes => bytes.take 64 :: chunks64Aux fuel (bytes.drop 64)

/-- Split a byte list into 64-byte chunks. -/
def chunks64 (bytes : List Nat) : List (List Nat) :=
  chunks64Aux bytes.length bytes

/-- One MD5 round: round index `i`, message words `m`, state `(a, b, c, d)`. -/
def md5Round (m : List Nat) (st : Nat × Nat × Nat × Nat) (i : Nat) :
    Nat × Nat × Nat × Nat :=
  let (a, b, c, d) := st
  let f :=
    if i < 16 then (b &&& c) ||| ((b ^^^ mask32) &&& d)
    else if i < 32 then (d &&& b) ||| ((d ^^^ mask32) &&& c)
    else if i < 48 then b ^^^ c ^^^ d
    else c ^^^ (b ||| (d ^^^ mask32))
  let g :=
    if i < 16 then i
    else if i < 32 then (5 * i + 1) % 16
    else if i < 48 then (3 * i + 5) % 16
    else (7 * i) % 16
  let f2 := (f + a + md5K.getD i 0 + m.getD g 0) % M32
  (d, (b + rotl32 f2 (md5S.getD i 0)) % M32, b, c)

/-- Process one 64-byte chunk. -/
def md5Chunk (st : Nat × Nat × Nat × Nat) (chunk : List Nat) :
    Nat × Nat × Nat × Nat :=
  let m := bytesToWords chunk
  let r := (List.range 64).foldl (md5Round m) st
  let (a0, b0, c0, d0) := st
  let (a, b, c, d) := r
  ((a0 + a) % M32, (b0 + b) % M32, (c0 + c) % M32, (d0 + d) % M32)

/-- The MD5 initial state. -/
def md5Init : Nat × Nat × Nat × Nat :=
  (0x67452301, 0xefcdab89, 0x98badcfe, 0x10325476)

/-- The MD5 digest of a byte list, as four 32-bit state words. -/
def md5Digest (msg : List Nat) : Nat × Nat × Nat × Nat :=
  (chunks64 (md5Pad msg)).foldl md5Chunk md5Init

/-- A lowercase hexadecimal digit. -/
def hexDigitChar (n : Nat) : Char :=
  if n < 10 then Char.ofNat (48 + n) else Char.ofNat (87 + n)

/-- Two lowercase hex digits of a byte. -/
def byteToHex (b : Nat) : String :=
  String.mk [hexDigitChar (b / 16), hexDigitChar (b % 16)]

/-- Little-endian hex rendering of one 32-bit state word. -/
def word32ToHexLE (w : Nat) : String :=
  byteToHex (w &&& 255) ++ byteToHex ((w >>> 8) &&& 255) ++
  byteToHex ((w >>> 16) &&& 255) ++ byteToHex ((w >>> 24) &&& 255)

/-- `hashlib.md5(s.encode()).hexdigest()`. -/
def md5hex (s : String) : String :=
  let d := md5Digest (strBytes s)
  word32ToHexLE d.1 ++ word32ToHexLE d.2.1 ++ word32ToHexLE d.2.2.1 ++
    word32ToHexLE d.2.2.2

/-! ## POSIX path helpers used by the bind-mount branch

These embed `os.path.expanduser`, `os.path.isabs` (inlined as a
`startsWith "/"` test), `os.path.join` (two arguments) and
`os.path.normpath` from CPython `posixpath`. -/

/-- Python `str.rstrip(c)` for a single strip character. -/
def pyRstrip (c : Char) (s : String) : String :=
  String.mk ((s.data.reverse.dropWhile (· = c)).reverse)

/-- `posixpath.expanduser`, with the `HOME` environment variable passed
explicitly. The `~user` form is modelled for a user absent from the user
database, where Python returns the path unchanged. -/
def expanduser (home : String) (path : String) : String :=
  if !strStartsWith path "~" then path
  else
    let i := match (path.data.drop 1).findIdx? (· = '/') with
      | some j => j + 1
      | none => path.length
    if i = 1 then
      let userhome := pyRstrip '/' home
      let r := userhome ++ String.mk (path.data.drop i)
      if r = "" then "/" else r
    else path

/-- `posixpath.join` restricted to two arguments, as called by the code. -/
def pyJoin (a b : String) : String :=
  if strStartsWith b "/" then b
  else if a = "" || strEndsWith a "/" then a ++ b
  else a ++ "/" ++ b

/-- The component loop of `posixpath.normpath`. -/
def normpathComps (initialSlashes : Nat) : List String → List String → List String
  | acc, [] => acc
  | acc, comp :: rest =>
    if comp = "" ∨ comp = "." then normpathComps initialSlashes acc rest
    else if comp ≠ ".." ∨ (initialSlashes = 0 ∧ acc = []) ∨ acc.getLast? = some ".." then
      normpathComps initialSlashes (acc ++ [comp]) rest
    else if acc ≠ [] then normpathComps initialSlashes acc.dropLast rest
    else normpathComps initialSlashes acc rest

/-- `posixpath.normpath`. -/
def normpath (p : String) : String :=
  if p = "" then "."
  else
    let initialSlashes : Nat :=
      if strStartsWith p "//" && !strStartsWith p "///" then 2
      else if strStartsWith p "/" then 1 else 0
    let comps := pySplitChar '/' p
    let newComps := normpathComps initialSlashes [] comps
    let joined := pyJoinSep "/" newComps
    let r := String.mk (List.replicate initialSlashes '/') ++ joined
    if r = "" then "." else r

/-! ## Mount specifications (`vibecon/mount_parser.py`)

A mount spec arrives as a JSON value. The code first distinguishes bare
strings and other non-dict values from dicts; a dict's relevant keys are
modelled as optional fields (`none` = key absent). `read_only` and
`global` are read with `.get(key, False)` and used for truthiness only,
so they are modelled as `Bool`. -/

/-- The relevant keys of a mount-spec JSON object. -/
structure MountObj where
  type_ : Option String := none
  source : Option String := none
  target : Option String := none
  read_only : Bool := false
  selinux : Option String := none
  uid : Option Int := none
  gid : Option Int := none
  global_ : Bool := false
deriving DecidableEq

/-- A mount-spec JSON value: a bare string, some other non-object value,
or an object. -/
inductive MountInput where
  | str (s : String)
  | nonObject
  | obj (m : MountObj)
deriving DecidableEq

/-- The distinct `print` + `sys.exit(1)` sites of the mount parser. -/
inductive MountError where
  | notAnObject
  | missingType
  | missingTarget
  | unknownType
  | bindMissingSource
  | volumeMissingSource
deriving DecidableEq

/-- The `uid=…`/`gid=…` option fragments shared by the two extended
(`--mount`) branches. -/
def uidGidOpts (uid gid : Option Int) : List String :=
  (match uid with | some u => ["uid=" ++ toString u] | none => []) ++
  (match gid with | some g => ["gid=" ++ toString g] | none => [])

/-- `MountParser._parse_anonymous_mount`. -/
def _parse_anonymous_mount (m : MountObj) (target : String) (read_only : Bool) :
    List String :=
  if m.uid.isSome || m.gid.isSome then
    let driver_opts := "o=" ++ pyJoinSep "," (uidGidOpts m.uid m.gid)
    let mount_parts :=
      ["type=volume", "target=" ++ target, "volume-opt=type=tmpfs",
       "volume-opt=device=tmpfs", "\"volume-opt=" ++ driver_opts ++ "\""] ++
      (if read_only then ["readonly"] else [])
    ["--mount", pyJoinSep "," mount_parts]
  else
    ["-v", target]

/-- `MountParser._parse_bind_mount`. The host `HOME` used by
`os.path.expanduser` is an explicit parameter; the existence check on the
resolved source and the uid/gid warning only print, so they do not appear
in the result. -/
def _parse_bind_mount (home : String) (m : MountObj) (target project_root : String)
    (read_only : Bool) (selinux : Option String) : Except MountError (List String) :=
  if !truthy m.source then .error .bindMissingSource
  else
    let source := m.source.getD ""
    let expanded := expanduser home source
    let resolved :=
      if strStartsWith expanded "/" then expanded
      else normpath (pyJoin project_root expanded)
    let mount_arg := resolved ++ ":" ++ target
    let suffix_opts :=
      (if read_only then ["ro"] else []) ++
      (if truthy selinux then [selinux.getD ""] else [])
    .ok ["-v",
      if suffix_opts ≠ [] then mount_arg ++ ":" ++ pyJoinSep "," suffix_opts
      else mount_arg]

/-- The volume-name rule of `MountParser._parse_volume_mount`: `global`
uses the source verbatim, otherwise the container name is prefixed. -/
def resolvedVolumeName (global_ : Bool) (container_name source : String) : String :=
  if global_ then source else container_name ++ "_" ++ source

/-- `MountParser._parse_volume_mount`. -/
def _parse_volume_mount (m : MountObj) (target container_name : String)
    (read_only : Bool) (selinux : Option String) : Except MountError (List String) :=
  if !truthy m.source then .error .volumeMissingSource
  else
    let source := m.source.getD ""
    let volume_name := resolvedVolumeName m.global_ container_name source
    if m.uid.isSome || m.gid.isSome then
      let driver_opts := "o=" ++ pyJoinSep "," (uidGidOpts m.uid m.gid)
      let mount_parts :=
        ["type=volume", "source=" ++ volume_name, "target=" ++ target,
         "volume-opt=type=tmpfs", "volume-opt=device=tmpfs",
         "\"volume-opt=" ++ driver_opts ++ "\""] ++
        (if read_only then ["readonly"] else [])
      .ok ["--mount", pyJoinSep "," mount_parts]
    else
      let mount_arg := volume_name ++ ":" ++ target
      let suffix_opts :=
        (if read_only then ["ro"] else []) ++
        (if truthy selinux then [selinux.getD ""] else [])
      .ok ["-v",
        if suffix_opts ≠ [] then mount_arg ++ ":" ++ pyJoinSep "," suffix_opts
        else mount_arg]

/-- `MountParser.parse_mount`. A `sys.exit(1)` is an `Except.error`. -/
def parse_mount (home : String) (mount_spec : MountInput)
    (project_root container_name : String) : Except MountError (List String) :=
  match mount_spec with
  | .str _ => .error .notAnObject
  | .nonObject => .error .notAnObject
  | .obj m =>
    if !truthy m.type_ then .error .missingType
    else if !truthy m.target then .error .missingTarget
    else
      let target := m.target.getD ""
      let read_only := m.read_only
      let selinux := m.selinux
      if m.type_ = some "anonymous" then
        .ok (_parse_anonymous_mount m target read_only)
      else if m.type_ = some "bind" then
        _parse_bind_mount home m target project_root read_only selinux
      else if m.type_ = some "volume" then
        _parse_volume_mount m target container_name read_only selinux
      else .error .unknownType

/-! ## Container identity (`VibeconCLI._generate_container_name`) -/

/-- `VibeconCLI._generate_container_name` from `vibecon/cli.py`:
`md5(path)[:8]` and `path.lstrip('/').replace('/', '-').replace('_', '-').lower()`. -/
def _generate_container_name (workspace_path : String) : String :=
  let path_hash := strTake (md5hex workspace_path) 8
  let sanitized_path :=
    pyLower (pyReplaceChar '_' '-' (pyReplaceChar '/' '-' (pyLstrip '/' workspace_path)))
  "vibecon-" ++ sanitized_path ++ "-" ++ path_hash

/-- Modelled from the spec sentence for comparison: sanitized-path
lowercases the path, strips the leading separator, and replaces `/` and
`_` with `-`; hash8 is the first 8 hex characters of an MD5 digest of the
raw path. -/
def nameForSpec (workspace_path : String) : String :=
  let sanitized :=
    pyReplaceChar '_' '-' (pyReplaceChar '/' '-' (pyLstrip '/' (pyLower workspace_path)))
  let hash8 := strTake (md5hex workspace_path) 8
  "vibecon-" ++ sanitized ++ "-" ++ hash8

/-! ## Lifecycle reconciliation (`vibecon/docker_manager.py`)

`ensure_container_running` and `start_container` are embedded as a
transformer over an abstract engine state, recording every engine
invocation in a trace. The outcome of the fallible engine calls
(`docker start`, `docker run`, the unexpected-error branch of
`docker image inspect`) and the presence of a `build_image_func` are an
explicit behaviour record; the observable container/image state is an
explicit state record. Host queries that are not engine calls (git
config, timezone) do not appear in the trace. -/

/-- One engine (docker CLI) invocation. -/
inductive EngineOp where
  | inspectRunning
  | inspectExists
  | startOp
  | rmOp
  | inspectImage
  | buildOp
  | runOp
deriving DecidableEq

/-- Observable engine state for one container name and one image name. -/
structure EngineState where
  running : Bool
  present : Bool
  image : Bool
deriving DecidableEq

/-- Outcomes of the fallible engine calls, fixed per scenario. -/
structure EngineBehavior where
  startOk : Bool
  runOk : Bool
  imageInspectErr : Bool
  hasBuildFn : Bool
deriving DecidableEq

/-- Result of a reconciliation run: `ok = false` models `sys.exit(1)`,
`trace` the engine calls issued in order, `state` the engine state left
behind. -/
structure EnsureResult where
  ok : Bool
  trace : List EngineOp
  state : EngineState
deriving DecidableEq

/-- The mount loop of `start_container`: parse each configured mount in
declaration order with `project_root = cwd`; a parse error exits. -/
def parseMounts (home : String) (mounts : List MountInput)
    (project_root container_name : String) : Except MountError (List String) :=
  match mounts with
  | [] => .ok []
  | m :: rest => do
    let args ← parse_mount home m project_root container_name
    let restArgs ← parseMounts home rest project_root container_name
    .ok (args ++ restArgs)

/-- `DockerManager.start_container`: build the `docker run` command — the
mount loop exits on an invalid spec before any run is issued — then issue
the run; a non-zero run exits. -/
def start_container (b : EngineBehavior) (home : String) (mounts : List MountInput)
    (cwd container_name : String) (s : EngineState) (t : List EngineOp) : EnsureResult :=
  match parseMounts home mounts cwd container_name with
  | .error _ => ⟨false, t, s⟩
  | .ok _ =>
    if b.runOk then ⟨true, t ++ [.runOp], { s with running := true, present := true }⟩
    else ⟨false, t ++ [.runOp], s⟩

/-- The tail of `ensure_container_running`: `image_exists` (which exits on
an unexpected inspect error), the conditional build, then
`start_container`. -/
def imageAndStart (b : EngineBehavior) (home : String) (mounts : List MountInput)
    (cwd container_name : String) (s : EngineState) (t : List EngineOp) : EnsureResult :=
  let t := t ++ [EngineOp.inspectImage]
  if b.imageInspectErr then ⟨false, t, s⟩
  else if s.image then start_container b home mounts cwd container_name s t
  else if b.hasBuildFn then
    start_container b home mounts cwd container_name { s with image := true }
      (t ++ [EngineOp.buildOp])
  else start_container b home mounts cwd container_name s t

/-- `DockerManager.ensure_container_running`: Running fast path, then the
restart-or-remove handling of an existing stopped container, then image
check/build and fresh start. -/
def ensure_container_running (b : EngineBehavior) (home : String)
    (mounts : List MountInput) (cwd container_name : String) (s : EngineState) :
    EnsureResult :=
  let t := [EngineOp.inspectRunning]
  if s.running then ⟨true, t, s⟩
  else
    let t := t ++ [EngineOp.inspectExists]
    if s.present then
      let t := t ++ [EngineOp.startOp]
      if b.startOk then ⟨true, t, { s with running := true }⟩
      else
        imageAndStart b home mounts cwd container_name
          { s with running := false, present := false } (t ++ [EngineOp.rmOp])
    else imageAndStart b home mounts cwd container_name s t

/-! ## Host timezone resolution (`DockerManager._get_host_timezone`)

The ambient host is an explicit record. Python exceptions are modelled per
call site: reading `/etc/timezone` catches `FileNotFoundError` and
`PermissionError`; invoking `timedatectl` via `subprocess.run` catches
only `FileNotFoundError` (a `PermissionError` — binary present but not
executable — escapes); the symlink inspection catches both. An uncaught
exception is `Except.error ()`. -/

/-- Outcome of opening and reading a file. -/
inductive FileRead where
  | content (s : String)
  | absent
  | permissionDenied
deriving DecidableEq

/-- Outcome of a `subprocess.run` invocation. -/
inductive ExecOutcome where
  | ran (returncode : Int) (stdout : String)
  | binMissing
  | permissionDenied
deriving DecidableEq

/-- The ambient host facts `_get_host_timezone` consults. -/
structure TzHost where
  tzVar : Option String
  etcTimezone : FileRead
  timedatectl : ExecOutcome
  localtimeIsSymlink : Bool
  localtimeParts : List String
  localtimeErr : Bool
deriving DecidableEq

/-- The `/etc/timezone` step: the stripped file content when the file is
readable and that content is nonempty; `FileNotFoundError` and
`PermissionError` are caught and yield nothing. -/
def etcTimezoneStep : FileRead → Option String
  | .content c => if pyStrip c ≠ "" then some (pyStrip c) else none
  | .absent => none
  | .permissionDenied => none

/-- The `/etc/localtime` symlink fallback step followed by the `"UTC"`
default. This step never throws (both exception kinds are caught, modelled
by `localtimeErr`), so it is a total `String`. -/
def tzSymlinkStep (h : TzHost) : String :=
  if h.localtimeErr then "UTC"
  else if h.localtimeIsSymlink then
    match h.localtimeParts.findIdx? (· = "zoneinfo") with
    | some idx =>
      if idx + 1 < h.localtimeParts.length then
        pyJoinSep "/" (h.localtimeParts.drop (idx + 1))
      else "UTC"
    | none => "UTC"
  else "UTC"

/-- `DockerManager._get_host_timezone`. -/
def _get_host_timezone (h : TzHost) : Except Unit String :=
  if truthy h.tzVar then .ok (h.tzVar.getD "")
  else
    match etcTimezoneStep h.etcTimezone with
    | some tz => .ok tz
    | none =>
      match h.timedatectl with
      | .permissionDenied => .error ()
      | .binMissing => .ok (tzSymlinkStep h)
      | .ran code out =>
        if code = 0 ∧ pyStrip out ≠ "" then .ok (pyStrip out)
        else .ok (tzSymlinkStep h)

/-! ## Helpers for stating properties -/

/-- Did the call exit with `sys.exit(1)`? -/
def isErr {ε α : Type} : Except ε α → Bool
  | .error _ => true
  | .ok _ => false

/-- The argument list of a successful parse, `[]` on an exit. -/
def okArgs {ε : Type} : Except ε (List String) → List String
  | .error _ => []
  | .ok l => l

/-- The invalidity condition exactly as claim C6 words it: bare string or
non-object, `type` missing or not one of bind/volume/anonymous, `target`
missing or empty, or a bind/volume mount with `source` missing. -/
def claimedInvalidMount : MountInput → Bool
  | .str _ => true
  | .nonObject => true
  | .obj m =>
    decide (m.type_ = none)
    || !(decide (m.type_ = some "bind") || decide (m.type_ = some "volume")
         || decide (m.type_ = some "anonymous"))
    || decide (m.target = none) || decide (m.target = some "")
    || ((decide (m.type_ = some "bind") || decide (m.type_ = some "volume"))
        && decide (m.source = none))

/-- The invalidity condition the code realises: as claimed, except that a
bind/volume `source` that is present but empty is also invalid. -/
def isInvalidMount : MountInput → Bool
  | .str _ => true
  | .nonObject => true
  | .obj m =>
    !(decide (m.type_ = some "bind") || decide (m.type_ = some "volume")
      || decide (m.type_ = some "anonymous"))
    || !truthy m.target
    || ((decide (m.type_ = some "bind") || decide (m.type_ = some "volume"))
        && !truthy m.source)

/-- The suffix a compiled bind mount carries after the `host:container`
base (amended description): nothing when neither flag is set, otherwise a
single colon followed by the comma-joined set suffixes. -/
def bindSuffix (ro : Bool) (sel : Option String) : String :=
  let suffix_opts :=
    (if ro then ["ro"] else []) ++ (if truthy sel then [sel.getD ""] else [])
  if suffix_opts = [] then "" else ":" ++ pyJoinSep "," suffix_opts

end Vibecon

/-- RFC 1321 test vector: the MD5 of the empty string. -/
theorem Vibecon.md5hex_vector_empty :
    Vibecon.md5hex "" = "d41d8cd98f00b204e9800998ecf8427e" := by decide

/-- RFC 1321 test vector: the MD5 of "abc". -/
theorem Vibecon.md5hex_vector_abc :
    Vibecon.md5hex "abc" = "900150983cd24fb0d6963f7d28e17f72" := by decide

namespace Vibecon

/-- C5: for every Volume MountSpec the resolved volume name is the source
verbatim when `global` is set and `{containerName}_{source}` otherwise; in
particular with global=false, source="cache" and container name
vibecon-foo-abc12345 the compiled simple form mounts
vibecon-foo-abc12345_cache, and with global=true it mounts exactly cache. -/
theorem C5_resolved_volume_name :
    (∀ (g : Bool) (container_name source : String),
      resolvedVolumeName g container_name source
        = if g then source else container_name ++ "_" ++ source) ∧
    parse_mount "/root"
        (.obj { type_ := some "volume", source := some "cache", target := some "/data" })
        "/proj" "vibecon-foo-abc12345"
      = .ok ["-v", "vibecon-foo-abc12345_cache:/data"] ∧
    parse_mount "/root"
        (.obj { type_ := some "volume", source := some "cache", target := some "/data",
                global_ := true })
        "/proj" "vibecon-foo-abc12345"
      = .ok ["-v", "cache:/data"] :=
  ⟨fun _ _ _ => rfl, rfl, rfl⟩

/-- The bind helper exits exactly when its source is falsy. -/
theorem isErr_parse_bind (home : String) (m : MountObj) (target project_root : String)
    (ro : Bool) (sel : Option String) :
    isErr (_parse_bind_mount home m target project_root ro sel) = !truthy m.source := by
  unfold _parse_bind_mount
  cases h : truthy m.source <;> simp [h, isErr]

/-- The volume helper exits exactly when its source is falsy. -/
theorem isErr_parse_volume (m : MountObj) (target container_name : String)
    (ro : Bool) (sel : Option String) :
    isErr (_parse_volume_mount m target container_name ro sel) = !truthy m.source := by
  unfold _parse_volume_mount
  cases h : truthy m.source <;> cases h2 : (m.uid.isSome || m.gid.isSome) <;>
    simp [h, h2, isErr]

/-- C6 counterexample: a bind mount whose `source` key is present but maps
to the empty string exits with the missing-source error, although the
claim's invalidity condition (source strictly missing) calls this spec
well formed. -/
theorem C6_counterexample :
    parse_mount "/home/u"
        (.obj { type_ := some "bind", source := some "", target := some "/t" })
        "/proj" "cn"
      = .error .bindMissingSource ∧
    claimedInvalidMount
        (.obj { type_ := some "bind", source := some "", target := some "/t" }) = false :=
  ⟨rfl, rfl⟩

/-- C6 (amended): mount compilation exits with a validation error exactly
when the spec is a bare string or non-object, the type is missing or not
one of bind/volume/anonymous, the target is missing or empty, or the spec
is a bind or volume mount whose source is missing or empty; any other spec
compiles without this failure, and the failure produces no engine
arguments. -/
theorem C6_invalid_mount_iff (home project_root container_name : String) (i : MountInput) :
    isErr (parse_mount home i project_root container_name) = isInvalidMount i := by
  cases i with
  | str s => rfl
  | nonObject => rfl
  | obj m =>
    simp only [parse_mount, isInvalidMount]
    by_cases h1 : truthy m.type_
    · by_cases h2 : truthy m.target
      · by_cases ha : m.type_ = some "anonymous"
        · simp [h2, ha, isErr, (by decide : truthy (some "anonymous") = true)]
        · by_cases hb : m.type_ = some "bind"
          · simp [h2, hb, isErr_parse_bind, (by decide : truthy (some "bind") = true)]
          · by_cases hv : m.type_ = some "volume"
            · simp [h2, hv, isErr_parse_volume,
                (by decide : truthy (some "volume") = true)]
            · simp [h1, h2, ha, hb, hv, isErr]
      · simp [h1, h2, isErr]
    · cases hty : m.type_ with
      | none => simp [hty, truthy, isErr]
      | some t =>
        rw [hty] at h1
        have ht0 : t = "" := by
          by_contra hne
          exact h1 (by simp [truthy, hne])
        subst ht0
        simp [truthy, isErr]

/-- C10: the selinux field never influences the compiled output of an
Anonymous MountSpec (compilations differing only in selinux agree, in both
the simple and the uid/gid extended form), it is likewise dropped from the
extended uid/gid form of a Volume MountSpec, and it is honored in the
simple volume form (shown by two concrete compilations where the label
appears). -/
theorem C10_selinux_ignored :
    (∀ (home project_root container_name : String) (m : MountObj) (sel sel2 : Option String),
      m.type_ = some "anonymous" →
      parse_mount home (.obj { m with selinux := sel }) project_root container_name
        = parse_mount home (.obj { m with selinux := sel2 }) project_root container_name) ∧
    (∀ (m : MountObj) (target container_name : String) (ro : Bool) (sel sel2 : Option String),
      m.uid.isSome ∨ m.gid.isSome →
      _parse_volume_mount m target container_name ro sel
        = _parse_volume_mount m target container_name ro sel2) ∧
    _parse_volume_mount { source := some "cache" } "/data" "cn" false (some "z")
      = .ok ["-v", "cn_cache:/data:z"] ∧
    _parse_volume_mount { source := some "cache" } "/data" "cn" false none
      = .ok ["-v", "cn_cache:/data"] := by
  refine ⟨?_, ?_, rfl, rfl⟩
  · intro home project_root container_name m sel sel2 hty
    simp [parse_mount, hty, (by decide : truthy (some "anonymous") = true),
      _parse_anonymous_mount]
  · intro m target container_name ro sel sel2 huid
    have h2 : (m.uid.isSome || m.gid.isSome) = true := by
      rcases huid with h | h <;> simp [h]
    unfold _parse_volume_mount
    cases h : truthy m.source <;> simp [h, h2]

/-- Witness for C10: the hypotheses hold and the conclusion evaluates at an
anonymous spec and at a uid-bearing volume spec. -/
theorem C10_selinux_ignored_witness :
    parse_mount "/h"
        (.obj { type_ := some "anonymous", target := some "/t", selinux := some "z" })
        "/p" "c"
      = parse_mount "/h" (.obj { type_ := some "anonymous", target := some "/t" }) "/p" "c" ∧
    _parse_volume_mount { source := some "v", uid := some 1000 } "/t" "c" false (some "z")
      = _parse_volume_mount { source := some "v", uid := some 1000 } "/t" "c" false none :=
  ⟨C10_selinux_ignored.1 "/h" "/p" "c" { type_ := some "anonymous", target := some "/t" }
      (some "z") none rfl,
   C10_selinux_ignored.2.1 { source := some "v", uid := some 1000 } "/t" "c" false
      (some "z") none (Or.inl rfl)⟩

/-- Appending one element to a nonempty comma-join inserts one separator. -/
theorem pyJoinSep_append_single (sep y : String) :
    ∀ (l : List String), l ≠ [] →
      pyJoinSep sep (l ++ [y]) = pyJoinSep sep l ++ sep ++ y
  | [], h => absurd rfl h
  | [_], _ => rfl
  | x :: z :: xs, _ => by
    have ih := pyJoinSep_append_single sep y (z :: xs) (by simp)
    simp only [List.cons_append, List.append_eq, pyJoinSep] at ih ⊢
    rw [ih]
    simp [String.append_assoc]

/-- C7: an Anonymous or Volume MountSpec compiles to the extended
`--mount` tmpfs-driver-opt form exactly when uid or gid is given; the
readonly flag is appended to that form exactly when read_only is set
(stated by relating the read_only=true and read_only=false outputs); with
neither uid nor gid the simple `-v` form is produced. In particular an
Anonymous spec with uid=1000 compiles to the extended form, never
`["-v", target]`. -/
theorem C7_extended_mount_form :
    (∀ (m : MountObj) (target : String) (ro : Bool),
      ((_parse_anonymous_mount m target ro).head? = some "--mount"
        ↔ (m.uid.isSome ∨ m.gid.isSome)) ∧
      (m.uid = none ∧ m.gid = none →
        _parse_anonymous_mount m target ro = ["-v", target])) ∧
    (∀ (m : MountObj) (target : String),
      m.uid.isSome ∨ m.gid.isSome →
      (_parse_anonymous_mount m target true).getD 1 ""
        = (_parse_anonymous_mount m target false).getD 1 "" ++ ",readonly") ∧
    (∀ (m : MountObj) (target container_name : String) (ro : Bool) (sel : Option String),
      truthy m.source = true →
      ((okArgs (_parse_volume_mount m target container_name ro sel)).head? = some "--mount"
        ↔ (m.uid.isSome ∨ m.gid.isSome)) ∧
      (m.uid.isSome ∨ m.gid.isSome →
        (okArgs (_parse_volume_mount m target container_name true sel)).getD 1 ""
          = (okArgs (_parse_volume_mount m target container_name false sel)).getD 1 ""
            ++ ",readonly")) ∧
    (∀ (target : String) (ro : Bool),
      (_parse_anonymous_mount { uid := some 1000 } target ro).head? = some "--mount" ∧
      _parse_anonymous_mount { uid := some 1000 } target ro ≠ ["-v", target]) := by
  refine ⟨?_, ?_, ?_, ?_⟩
  · intro m target ro
    unfold _parse_anonymous_mount
    cases h : (m.uid.isSome || m.gid.isSome)
    · refine ⟨by simp [h, ← Bool.or_eq_true], fun _ => by simp [h]⟩
    · refine ⟨by simp [h, ← Bool.or_eq_true], fun hng => ?_⟩
      rw [hng.1, hng.2] at h
      simp at h
  · intro m target h2
    have h : (m.uid.isSome || m.gid.isSome) = true := by
      rcases h2 with h | h <;> simp [h]
    unfold _parse_anonymous_mount
    simp only [h, if_true, List.getD]
    rw [pyJoinSep_append_single "," "readonly" _ (by simp)]
    simp [String.append_assoc]
  · intro m target container_name ro sel hsrc
    unfold _parse_volume_mount
    cases h : (m.uid.isSome || m.gid.isSome)
    · refine ⟨by simp [hsrc, h, okArgs, ← Bool.or_eq_true], fun h2 => ?_⟩
      rcases h2 with h2 | h2 <;> simp [h2] at h
    · refine ⟨by simp [hsrc, h, okArgs, ← Bool.or_eq_true], fun _ => ?_⟩
      simp only [hsrc, h, if_true, Bool.not_true, okArgs, List.getD]
      rw [pyJoinSep_append_single "," "readonly" _ (by simp)]
      simp [String.append_assoc]
  · intro target ro
    unfold _parse_anonymous_mount
    cases ro <;> simp

/-- Witness for C7: the hypotheses discharged at an anonymous spec with
uid=1000 and a volume spec with gid=7. -/
theorem C7_extended_mount_form_witness :
    _parse_anonymous_mount { uid := none, gid := none, target := some "/t" } "/t" false
      = ["-v", "/t"] ∧
    (_parse_anonymous_mount { uid := some 1000 } "/t" true).getD 1 ""
      = (_parse_anonymous_mount { uid := some 1000 } "/t" false).getD 1 "" ++ ",readonly" ∧
    ((okArgs (_parse_volume_mount { source := some "v", gid := some 7 } "/t" "c" false none)).head?
        = some "--mount"
      ↔ (((none : Option Int).isSome = true) ∨ ((some (7 : Int)).isSome = true))) ∧
    (okArgs (_parse_volume_mount { source := some "v", gid := some 7 } "/t" "c" true none)).getD 1 ""
      = (okArgs (_parse_volume_mount { source := some "v", gid := some 7 } "/t" "c" false none)).getD 1 ""
        ++ ",readonly" :=
  ⟨(C7_extended_mount_form.1 { uid := none, gid := none, target := some "/t" } "/t" false).2
      ⟨rfl, rfl⟩,
   C7_extended_mount_form.2.1 { uid := some 1000 } "/t" (Or.inl rfl),
   (C7_extended_mount_form.2.2.1 { source := some "v", gid := some 7 } "/t" "c" false none rfl).1,
   (C7_extended_mount_form.2.2.1 { source := some "v", gid := some 7 } "/t" "c" true none rfl).2
      (Or.inr rfl)⟩

/-- C8 counterexample: with both read_only and a selinux label set, the
compiled bind arg is `/src:/c:ro,z` — the two suffixes are joined by a
comma after one colon, not appended as colon-separated suffixes
(`/src:/c:ro:z`), refuting the claim's wording for that case. -/
theorem C8_counterexample :
    parse_mount "/h"
        (.obj { type_ := some "bind", source := some "/src", target := some "/c",
                read_only := true, selinux := some "z" })
        "/p" "cn"
      = .ok ["-v", "/src:/c:ro,z"] ∧
    ("/src:/c:ro,z" : String) ≠ "/src:/c" ++ ":ro" ++ ":z" :=
  ⟨rfl, by decide⟩

/-- C8 (amended): relative to the suffix-free compilation `base`, a
compiled bind mount equals `base ++ bindSuffix`, where the suffix is one
colon followed by the comma-joined set options; read_only alone yields
exactly `:ro` (no trailing colon, no duplicate suffix), a label alone
`:label`, both `:ro,label`, and an empty selinux value behaves as unset. -/
theorem C8_bind_suffix (home : String) (m : MountObj) (target project_root : String)
    (ro : Bool) (sel : Option String) (hsrc : truthy m.source = true) :
    (_parse_bind_mount home m target project_root ro sel
      = .ok ["-v",
          (okArgs (_parse_bind_mount home m target project_root false none)).getD 1 ""
            ++ bindSuffix ro sel]) ∧
    bindSuffix true none = ":ro" ∧
    bindSuffix false (some "z") = ":z" ∧
    bindSuffix true (some "z") = ":ro,z" ∧
    bindSuffix ro (some "") = bindSuffix ro none := by
  refine ⟨?_, rfl, rfl, rfl, rfl⟩
  unfold _parse_bind_mount bindSuffix okArgs
  cases ro <;> cases hsel : truthy sel <;>
    simp [hsrc, hsel, pyJoinSep, String.append_assoc, List.getD,
      (by decide : truthy (none : Option String) = false)]

/-- Witness for C8: the amended statement evaluated for a concrete bind
spec, its source hypothesis discharged. -/
theorem C8_bind_suffix_witness :
    _parse_bind_mount "/h" { source := some "/s" } "/c" "/p" true none
      = .ok ["-v",
          (okArgs (_parse_bind_mount "/h" { source := some "/s" } "/c" "/p" false none)).getD 1 ""
            ++ bindSuffix true none] :=
  (C8_bind_suffix "/h" { source := some "/s" } "/c" "/p" true none rfl).1

/-- A container start that returns normally leaves the container running. -/
theorem start_container_ok_running (b : EngineBehavior) (home : String)
    (mounts : List MountInput) (cwd container_name : String) (s : EngineState)
    (t : List EngineOp) :
    (start_container b home mounts cwd container_name s t).ok = true →
    (start_container b home mounts cwd container_name s t).state.running = true := by
  unfold start_container
  cases hpm : parseMounts home mounts cwd container_name <;>
    cases hro : b.runOk <;> simp [hpm, hro]

/-- The image-check-and-start tail, when it returns normally, leaves the
container running. -/
theorem imageAndStart_ok_running (b : EngineBehavior) (home : String)
    (mounts : List MountInput) (cwd container_name : String) (s : EngineState)
    (t : List EngineOp) :
    (imageAndStart b home mounts cwd container_name s t).ok = true →
    (imageAndStart b home mounts cwd container_name s t).state.running = true := by
  unfold imageAndStart
  cases hie : b.imageInspectErr <;> cases him : s.image <;> cases hbf : b.hasBuildFn <;>
    simp [hie, him, hbf] <;>
    exact start_container_ok_running _ _ _ _ _ _ _

/-- A reconciliation that returns normally leaves the container running. -/
theorem ensure_ok_running (b : EngineBehavior) (home : String)
    (mounts : List MountInput) (cwd container_name : String) (s : EngineState) :
    (ensure_container_running b home mounts cwd container_name s).ok = true →
    (ensure_container_running b home mounts cwd container_name s).state.running = true := by
  unfold ensure_container_running
  cases hr : s.running <;> cases hp : s.present <;> cases hso : b.startOk <;>
    simp [hr, hp, hso] <;>
    exact imageAndStart_ok_running _ _ _ _ _ _ _

/-- Any op in the trace of `start_container` was in the incoming trace or
is a run op issued only after every mount spec parsed successfully. -/
theorem mem_start_container_trace (x : EngineOp) (b : EngineBehavior) (home : String)
    (mounts : List MountInput) (cwd container_name : String) (s : EngineState)
    (t : List EngineOp) :
    x ∈ (start_container b home mounts cwd container_name s t).trace →
    x ∈ t ∨ (x = EngineOp.runOp ∧ isErr (parseMounts home mounts cwd container_name) = false) := by
  unfold start_container
  cases hpm : parseMounts home mounts cwd container_name <;>
    cases hro : b.runOk <;> simp [hpm, hro, isErr]

/-- Any op in the trace of the image-check-and-start tail was in the
incoming trace, or is the image inspect or build op, or is a run op issued
only after every mount spec parsed successfully. -/
theorem mem_imageAndStart_trace (x : EngineOp) (b : EngineBehavior) (home : String)
    (mounts : List MountInput) (cwd container_name : String) (s : EngineState)
    (t : List EngineOp) :
    x ∈ (imageAndStart b home mounts cwd container_name s t).trace →
    x ∈ t ∨ x = EngineOp.inspectImage ∨ x = EngineOp.buildOp ∨
      (x = EngineOp.runOp ∧ isErr (parseMounts home mounts cwd container_name) = false) := by
  unfold imageAndStart
  cases hie : b.imageInspectErr <;> cases him : s.image <;> cases hbf : b.hasBuildFn <;>
    simp [hie, him, hbf]
  all_goals try tauto
  all_goals
    intro hx
    rcases mem_start_container_trace x b home mounts cwd container_name _ _ hx with hx2 | hx2
    · simp at hx2
      tauto
    · tauto

/-- The Running fast path: one inspect, no state change. -/
theorem ensure_fast_path (b : EngineBehavior) (home : String) (mounts : List MountInput)
    (cwd container_name : String) (s : EngineState) (hr : s.running = true) :
    ensure_container_running b home mounts cwd container_name s
      = ⟨true, [EngineOp.inspectRunning], s⟩ := by
  unfold ensure_container_running
  simp [hr]

/-- The stopped-and-restart-succeeds path: inspect, inspect, start. -/
theorem ensure_restart (b : EngineBehavior) (home : String) (mounts : List MountInput)
    (cwd container_name : String) (s : EngineState) (hr : s.running = false)
    (hp : s.present = true) (hso : b.startOk = true) :
    ensure_container_running b home mounts cwd container_name s
      = ⟨true, [EngineOp.inspectRunning, EngineOp.inspectExists, EngineOp.startOp],
          { s with running := true }⟩ := by
  unfold ensure_container_running
  simp [hr, hp, hso]

/-- The absent-container creation path with the image present and a
successful run: inspect, inspect, image inspect, run. -/
theorem ensure_creation (b : EngineBehavior) (home : String) (mounts : List MountInput)
    (cwd container_name : String) (s : EngineState) (hr : s.running = false)
    (hp : s.present = false) (him : s.image = true) (hie : b.imageInspectErr = false)
    (hro : b.runOk = true) (hpm : isErr (parseMounts home mounts cwd container_name) = false) :
    ensure_container_running b home mounts cwd container_name s
      = ⟨true, [EngineOp.inspectRunning, EngineOp.inspectExists, EngineOp.inspectImage,
            EngineOp.runOp],
          { s with running := true, present := true }⟩ := by
  unfold ensure_container_running imageAndStart start_container
  cases hpm2 : parseMounts home mounts cwd container_name with
  | error e => rw [hpm2] at hpm; simp [isErr] at hpm
  | ok l => simp [hr, hp, him, hie, hro, hpm2]

/-- The image inspect op always appears in the image-check-and-start tail. -/
theorem inspectImage_mem_imageAndStart (b : EngineBehavior) (home : String)
    (mounts : List MountInput) (cwd container_name : String) (s : EngineState)
    (t : List EngineOp) :
    EngineOp.inspectImage ∈ (imageAndStart b home mounts cwd container_name s t).trace := by
  unfold imageAndStart start_container
  cases hie : b.imageInspectErr <;> cases him : s.image <;> cases hbf : b.hasBuildFn <;>
    cases hpm : parseMounts home mounts cwd container_name <;> cases hro : b.runOk <;>
      simp [hie, him, hbf, hpm, hro]

/-- C1 counterexample: with an invalid mount spec (a bare string) in the
config, and the container absent but the image present, the reconciler
issues three engine calls (inspect running, inspect exists, inspect image)
before the mount parser ever rejects the spec — refuting the claim that no
engine operation is performed before every mount spec is validated. -/
theorem C1_counterexample :
    ensure_container_running ⟨true, true, false, true⟩ "/h" [MountInput.str "bad"]
        "/cwd" "cn" ⟨false, false, true⟩
      = ⟨false, [EngineOp.inspectRunning, EngineOp.inspectExists, EngineOp.inspectImage],
          ⟨false, false, true⟩⟩ ∧
    isErr (parseMounts "/h" [MountInput.str "bad"] "/cwd" "cn") = true :=
  ⟨rfl, rfl⟩

/-- C1 (amended): validation always precedes the run: when any configured
mount spec is invalid, the reconciler never issues the engine run
operation (it exits while building the run command); engine inspect,
start, remove and build calls may however precede the validation, which
happens only inside container start, and on the Running or
restart-succeeds paths no validation happens at all. -/
theorem C1_no_run_on_invalid_mounts (b : EngineBehavior) (home : String)
    (mounts : List MountInput) (cwd container_name : String) (s : EngineState)
    (hbad : isErr (parseMounts home mounts cwd container_name) = true) :
    EngineOp.runOp ∉ (ensure_container_running b home mounts cwd container_name s).trace := by
  intro hmem
  by_cases hr : s.running = true
  · rw [ensure_fast_path _ _ _ _ _ _ hr] at hmem
    simp at hmem
  · rw [Bool.not_eq_true] at hr
    by_cases hp : s.present = true
    · by_cases hso : b.startOk = true
      · rw [ensure_restart _ _ _ _ _ _ hr hp hso] at hmem
        simp at hmem
      · rw [Bool.not_eq_true] at hso
        unfold ensure_container_running at hmem
        simp [hr, hp, hso] at hmem
        rcases mem_imageAndStart_trace _ _ _ _ _ _ _ _ hmem with h | h | h | h <;>
          simp [hbad] at h
    · rw [Bool.not_eq_true] at hp
      unfold ensure_container_running at hmem
      simp [hr, hp] at hmem
      rcases mem_imageAndStart_trace _ _ _ _ _ _ _ _ hmem with h | h | h | h <;>
        simp [hbad] at h

/-- Witness for C1 (amended): no run op in the trace for a concrete bad
config. -/
theorem C1_no_run_on_invalid_mounts_witness :
    EngineOp.runOp ∉ (ensure_container_running ⟨true, true, false, true⟩ "/h"
        [MountInput.str "bad"] "/cwd" "cn" ⟨false, false, true⟩).trace :=
  C1_no_run_on_invalid_mounts ⟨true, true, false, true⟩ "/h" [MountInput.str "bad"]
    "/cwd" "cn" ⟨false, false, true⟩ rfl

/-- C2: when the container is observed Running, `ensure_container_running`
returns after the single inspect with no further engine operation and no
state change; consequently, after any successful call, a second call with
identical arguments takes the Running fast path (its trace is exactly the
one inspect) and adds no engine run invocation — so in the fresh-creation
scenario the two calls together issue exactly one run. -/
theorem C2_ensure_idempotent :
    (∀ (b : EngineBehavior) (home : String) (mounts : List MountInput)
        (cwd container_name : String) (s : EngineState), s.running = true →
      ensure_container_running b home mounts cwd container_name s
        = ⟨true, [EngineOp.inspectRunning], s⟩) ∧
    (∀ (b : EngineBehavior) (home : String) (mounts : List MountInput)
        (cwd container_name : String) (s : EngineState),
      (ensure_container_running b home mounts cwd container_name s).ok = true →
      (ensure_container_running b home mounts cwd container_name
          (ensure_container_running b home mounts cwd container_name s).state).trace
        = [EngineOp.inspectRunning] ∧
      ((ensure_container_running b home mounts cwd container_name s).trace ++
          (ensure_container_running b home mounts cwd container_name
            (ensure_container_running b home mounts cwd container_name s).state).trace).count
          EngineOp.runOp
        = (ensure_container_running b home mounts cwd container_name s).trace.count
            EngineOp.runOp) ∧
    (∀ (b : EngineBehavior) (home : String) (mounts : List MountInput)
        (cwd container_name : String) (s : EngineState),
      s.running = false → s.present = false → s.image = true →
      b.imageInspectErr = false → b.runOk = true →
      isErr (parseMounts home mounts cwd container_name) = false →
      ((ensure_container_running b home mounts cwd container_name s).trace ++
          (ensure_container_running b home mounts cwd container_name
            (ensure_container_running b home mounts cwd container_name s).state).trace).count
          EngineOp.runOp = 1) := by
  refine ⟨?_, ?_, ?_⟩
  · intro b home mounts cwd container_name s hr
    exact ensure_fast_path b home mounts cwd container_name s hr
  · intro b home mounts cwd container_name s hok
    have hrun := ensure_ok_running b home mounts cwd container_name s hok
    rw [ensure_fast_path b home mounts cwd container_name _ hrun]
    simp
  · intro b home mounts cwd container_name s hr hp him hie hro hpm
    rw [ensure_creation b home mounts cwd container_name s hr hp him hie hro hpm]
    rw [ensure_fast_path b home mounts cwd container_name _ (by simp)]
    rfl

/-- Witness for C2: the fast path and the two-call run count evaluated on
concrete engine states. -/
theorem C2_ensure_idempotent_witness :
    ensure_container_running ⟨true, true, false, true⟩ "/h" [] "/cwd" "cn" ⟨true, true, true⟩
      = ⟨true, [EngineOp.inspectRunning], ⟨true, true, true⟩⟩ ∧
    ((ensure_container_running ⟨true, true, false, true⟩ "/h" [] "/cwd" "cn"
          ⟨false, false, true⟩).trace ++
        (ensure_container_running ⟨true, true, false, true⟩ "/h" [] "/cwd" "cn"
          (ensure_container_running ⟨true, true, false, true⟩ "/h" [] "/cwd" "cn"
            ⟨false, false, true⟩).state).trace).count EngineOp.runOp = 1 :=
  ⟨C2_ensure_idempotent.1 ⟨true, true, false, true⟩ "/h" [] "/cwd" "cn" ⟨true, true, true⟩ rfl,
   C2_ensure_idempotent.2.2 ⟨true, true, false, true⟩ "/h" [] "/cwd" "cn" ⟨false, false, true⟩
     rfl rfl rfl rfl rfl rfl⟩

/-- C3: when the container exists stopped and the engine start succeeds,
the reconciler issues exactly inspect-running, inspect-exists and one
start — zero removes, zero runs — and returns with the container running;
and a remove appears in a trace only when the container was observed
stopped and the restart failed, in which case the reconciler falls through
to the absent path (the image inspect follows). -/
theorem C3_stopped_restart :
    (∀ (b : EngineBehavior) (home : String) (mounts : List MountInput)
        (cwd container_name : String) (s : EngineState),
      s.running = false → s.present = true → b.startOk = true →
      ensure_container_running b home mounts cwd container_name s
        = ⟨true, [EngineOp.inspectRunning, EngineOp.inspectExists, EngineOp.startOp],
            { s with running := true }⟩ ∧
      (ensure_container_running b home mounts cwd container_name s).trace.count
          EngineOp.rmOp = 0 ∧
      (ensure_container_running b home mounts cwd container_name s).trace.count
          EngineOp.runOp = 0 ∧
      (ensure_container_running b home mounts cwd container_name s).trace.count
          EngineOp.startOp = 1) ∧
    (∀ (b : EngineBehavior) (home : String) (mounts : List MountInput)
        (cwd container_name : String) (s : EngineState),
      EngineOp.rmOp ∈ (ensure_container_running b home mounts cwd container_name s).trace →
      s.running = false ∧ s.present = true ∧ b.startOk = false ∧
      EngineOp.inspectImage ∈
        (ensure_container_running b home mounts cwd container_name s).trace) := by
  constructor
  · intro b home mounts cwd container_name s hr hp hso
    have heq := ensure_restart b home mounts cwd container_name s hr hp hso
    refine ⟨heq, ?_, ?_, ?_⟩ <;> rw [heq] <;> rfl
  · intro b home mounts cwd container_name s hmem
    by_cases hr : s.running = true
    · rw [ensure_fast_path _ _ _ _ _ _ hr] at hmem
      simp at hmem
    · rw [Bool.not_eq_true] at hr
      by_cases hp : s.present = true
      · by_cases hso : b.startOk = true
        · rw [ensure_restart _ _ _ _ _ _ hr hp hso] at hmem
          simp at hmem
        · rw [Bool.not_eq_true] at hso
          refine ⟨hr, hp, hso, ?_⟩
          unfold ensure_container_running
          simp [hr, hp, hso]
          exact inspectImage_mem_imageAndStart _ _ _ _ _ _ _
      · rw [Bool.not_eq_true] at hp
        exfalso
        unfold ensure_container_running at hmem
        simp [hr, hp] at hmem
        rcases mem_imageAndStart_trace _ _ _ _ _ _ _ _ hmem with h | h | h | h <;>
          simp at h

/-- Witness for C3: the restart path and the remove-only-on-failure part
evaluated on concrete engine states. -/
theorem C3_stopped_restart_witness :
    ensure_container_running ⟨true, true, false, true⟩ "/h" [] "/cwd" "cn" ⟨false, true, true⟩
      = ⟨true, [EngineOp.inspectRunning, EngineOp.inspectExists, EngineOp.startOp],
          ⟨true, true, true⟩⟩ ∧
    ((⟨false, true, true⟩ : EngineState).running = false ∧
      (⟨false, true, true⟩ : EngineState).present = true ∧
      (⟨false, false, false, true⟩ : EngineBehavior).startOk = false ∧
      EngineOp.inspectImage ∈
        (ensure_container_running ⟨false, true, false, true⟩ "/h" [] "/cwd" "cn"
          ⟨false, true, true⟩).trace) :=
  ⟨(C3_stopped_restart.1 ⟨true, true, false, true⟩ "/h" [] "/cwd" "cn" ⟨false, true, true⟩
      rfl rfl rfl).1,
   by
    have h := C3_stopped_restart.2 ⟨false, true, false, true⟩ "/h" [] "/cwd" "cn"
      ⟨false, true, true⟩ (by decide)
    exact ⟨h.1, h.2.1, rfl, h.2.2.2⟩⟩

/-- A string append with a nonempty left part is nonempty. -/
theorem str_append_ne_empty (a b : String) (ha : a ≠ "") : a ++ b ≠ "" := by
  intro hcontra
  apply ha
  have h2 := congrArg String.data hcontra
  rw [String.data_append] at h2
  exact String.ext (List.append_eq_nil.mp h2).1

/-- A join of a nonempty list of nonempty strings is nonempty. -/
theorem pyJoinSep_ne_empty (sep : String) :
    ∀ (l : List String), l ≠ [] → (∀ p ∈ l, p ≠ "") → pyJoinSep sep l ≠ ""
  | [], hne, _ => absurd rfl hne
  | [x], _, hp => by simpa [pyJoinSep] using hp x (by simp)
  | x :: y :: xs, _, hp => by
    simp only [pyJoinSep]
    exact str_append_ne_empty _ _ (str_append_ne_empty _ _ (hp x (by simp)))

/-- What the `/etc/timezone` step yields is never empty. -/
theorem etcTimezoneStep_some_ne_empty (r : FileRead) (tz : String)
    (h : etcTimezoneStep r = some tz) : tz ≠ "" := by
  cases r with
  | content c =>
    by_cases hc : pyStrip c = ""
    · simp [etcTimezoneStep, hc] at h
    · simp [etcTimezoneStep, hc] at h
      rw [← h]
      exact hc
  | absent => simp [etcTimezoneStep] at h
  | permissionDenied => simp [etcTimezoneStep] at h

/-- The symlink fallback step never yields an empty string when the
resolved symlink target has no empty path component (as `pathlib` parts
never do). -/
theorem tzSymlinkStep_ne_empty (h : TzHost)
    (hparts : ∀ p ∈ h.localtimeParts, p ≠ "") : tzSymlinkStep h ≠ "" := by
  unfold tzSymlinkStep
  cases herr : h.localtimeErr
  · simp only [Bool.false_eq_true, if_false]
    cases hsym : h.localtimeIsSymlink
    · simp
    · simp only [if_true]
      cases hfind : h.localtimeParts.findIdx? (· = "zoneinfo") with
      | none => simp
      | some idx =>
        by_cases hlen : idx + 1 < h.localtimeParts.length
        · simp only [hlen, if_true]
          apply pyJoinSep_ne_empty
          · intro hnil
            rw [List.drop_eq_nil_iff] at hnil
            omega
          · intro p hpmem
            exact hparts p (List.mem_of_mem_drop hpmem)
        · simp [hlen]
  · simp

/-- C9 counterexample: with no TZ variable, no `/etc/timezone` file and a
permission error when invoking the system time service (binary present but
not executable), the function aborts with an uncaught exception instead of
falling through to the symlink step and the "UTC" default — refuting the
claim that every step failure, including a permission error, falls
through, and that the function always returns a string. -/
theorem C9_counterexample :
    _get_host_timezone ⟨none, FileRead.absent, ExecOutcome.permissionDenied,
        false, [], false⟩
      = .error () :=
  rfl

/-- C9 (amended): the timezone is resolved by the priority chain
TZ variable, `/etc/timezone`, system time service, symlink reverse
resolution, "UTC"; every step failure falls through to the next, except
that a permission error when invoking the system time service aborts
(exactly that case throws, only a missing binary is tolerated there); in
every non-aborting case the result is a non-empty string. -/
theorem C9_timezone_chain (h : TzHost)
    (hparts : ∀ p ∈ h.localtimeParts, p ≠ "") :
    (isErr (_get_host_timezone h) = true ↔
      (truthy h.tzVar = false ∧ etcTimezoneStep h.etcTimezone = none ∧
        h.timedatectl = ExecOutcome.permissionDenied)) ∧
    (∀ s, _get_host_timezone h = .ok s → s ≠ "") ∧
    (truthy h.tzVar = true → _get_host_timezone h = .ok (h.tzVar.getD "")) ∧
    (∀ tz, truthy h.tzVar = false → etcTimezoneStep h.etcTimezone = some tz →
      _get_host_timezone h = .ok tz) ∧
    (∀ code out, truthy h.tzVar = false → etcTimezoneStep h.etcTimezone = none →
      h.timedatectl = ExecOutcome.ran code out → code = 0 → pyStrip out ≠ "" →
      _get_host_timezone h = .ok (pyStrip out)) ∧
    (truthy h.tzVar = false → etcTimezoneStep h.etcTimezone = none →
      h.timedatectl = ExecOutcome.binMissing →
      _get_host_timezone h = .ok (tzSymlinkStep h)) ∧
    (h.localtimeIsSymlink = false → tzSymlinkStep h = "UTC") := by
  have h3 : truthy h.tzVar = true → _get_host_timezone h = .ok (h.tzVar.getD "") := by
    intro htz
    unfold _get_host_timezone
    rw [htz]
    simp
  have h4 : ∀ tz, truthy h.tzVar = false → etcTimezoneStep h.etcTimezone = some tz →
      _get_host_timezone h = .ok tz := by
    intro tz htz hetc
    unfold _get_host_timezone
    rw [htz, hetc]
    simp
  have h5 : ∀ code out, truthy h.tzVar = false → etcTimezoneStep h.etcTimezone = none →
      h.timedatectl = ExecOutcome.ran code out → code = 0 → pyStrip out ≠ "" →
      _get_host_timezone h = .ok (pyStrip out) := by
    intro code out htz hetc htd hcode hout
    unfold _get_host_timezone
    rw [htz, hetc, htd]
    simp [hcode, hout]
  have h5b : ∀ code out, truthy h.tzVar = false → etcTimezoneStep h.etcTimezone = none →
      h.timedatectl = ExecOutcome.ran code out → ¬(code = 0 ∧ pyStrip out ≠ "") →
      _get_host_timezone h = .ok (tzSymlinkStep h) := by
    intro code out htz hetc htd hcs
    unfold _get_host_timezone
    rw [htz, hetc, htd]
    simp [hcs]
  have h6 : truthy h.tzVar = false → etcTimezoneStep h.etcTimezone = none →
      h.timedatectl = ExecOutcome.binMissing →
      _get_host_timezone h = .ok (tzSymlinkStep h) := by
    intro htz hetc htd
    unfold _get_host_timezone
    rw [htz, hetc, htd]
    simp
  have herrcase : truthy h.tzVar = false → etcTimezoneStep h.etcTimezone = none →
      h.timedatectl = ExecOutcome.permissionDenied →
      _get_host_timezone h = .error () := by
    intro htz hetc htd
    unfold _get_host_timezone
    rw [htz, hetc, htd]
    simp
  have h2 : ∀ s, _get_host_timezone h = .ok s → s ≠ "" := by
    intro s hok
    by_cases htz : truthy h.tzVar = true
    · rw [h3 htz] at hok
      simp at hok
      cases htzv : h.tzVar with
      | none => rw [htzv] at htz; simp [truthy] at htz
      | some v =>
        rw [htzv] at htz hok
        rw [← hok]
        simpa [truthy] using htz
    · rw [Bool.not_eq_true] at htz
      cases hetc : etcTimezoneStep h.etcTimezone with
      | some tz =>
        rw [h4 tz htz hetc] at hok
        simp at hok
        rw [← hok]
        exact etcTimezoneStep_some_ne_empty h.etcTimezone tz hetc
      | none =>
        cases htd : h.timedatectl with
        | permissionDenied =>
          rw [herrcase htz hetc htd] at hok
          simp at hok
        | binMissing =>
          rw [h6 htz hetc htd] at hok
          simp at hok
          rw [← hok]
          exact tzSymlinkStep_ne_empty h hparts
        | ran code out =>
          by_cases hcs : code = 0 ∧ pyStrip out ≠ ""
          · rw [h5 code out htz hetc htd hcs.1 hcs.2] at hok
            simp at hok
            rw [← hok]
            exact hcs.2
          · rw [h5b code out htz hetc htd hcs] at hok
            simp at hok
            rw [← hok]
            exact tzSymlinkStep_ne_empty h hparts
  have h1 : isErr (_get_host_timezone h) = true ↔
      (truthy h.tzVar = false ∧ etcTimezoneStep h.etcTimezone = none ∧
        h.timedatectl = ExecOutcome.permissionDenied) := by
    constructor
    · intro herr
      by_cases htz : truthy h.tzVar = true
      · rw [h3 htz] at herr
        simp [isErr] at herr
      · rw [Bool.not_eq_true] at htz
        cases hetc : etcTimezoneStep h.etcTimezone with
        | some tz =>
          rw [h4 tz htz hetc] at herr
          simp [isErr] at herr
        | none =>
          cases htd : h.timedatectl with
          | ran code out =>
            by_cases hcs : code = 0 ∧ pyStrip out ≠ ""
            · rw [h5 code out htz hetc htd hcs.1 hcs.2] at herr
              simp [isErr] at herr
            · rw [h5b code out htz hetc htd hcs] at herr
              simp [isErr] at herr
          | binMissing =>
            rw [h6 htz hetc htd] at herr
            simp [isErr] at herr
          | permissionDenied => exact ⟨htz, rfl, rfl⟩
    · rintro ⟨htz, hetc, htd⟩
      rw [herrcase htz hetc htd]
      rfl
  refine ⟨h1, h2, h3, h4, h5, h6, ?_⟩
  intro hsym
  unfold tzSymlinkStep
  rw [hsym]
  simp

/-- Witness for C9 (amended): the abort case and a non-empty symlink-step
result at concrete hosts. -/
theorem C9_timezone_chain_witness :
    isErr (_get_host_timezone ⟨none, FileRead.absent, ExecOutcome.permissionDenied,
        false, [], false⟩) = true ∧
    ("America/New_York" : String) ≠ "" :=
  ⟨(C9_timezone_chain ⟨none, FileRead.absent, ExecOutcome.permissionDenied,
        false, [], false⟩ (by decide)).1.mpr ⟨rfl, rfl, rfl⟩,
   (C9_timezone_chain ⟨none, FileRead.absent, ExecOutcome.binMissing, true,
        ["/", "usr", "share", "zoneinfo", "America", "New_York"], false⟩
      (by decide)).2.1 "America/New_York" rfl⟩

/-- `Char.ofNat` of a code point below the surrogate range keeps the code. -/
theorem toNat_ofNat_small (n : Nat) (hn : n < 55296) : (Char.ofNat n).toNat = n := by
  unfold Char.ofNat
  rw [dif_pos (Or.inl hn)]
  rfl

/-- On an upper-case ASCII letter, `pyCharLower` adds 32 to the code. -/
theorem pyCharLower_toNat_upper (c : Char) (hc : 65 ≤ c.toNat ∧ c.toNat ≤ 90) :
    (pyCharLower c).toNat = c.toNat + 32 := by
  unfold pyCharLower
  rw [if_pos hc]
  exact toNat_ofNat_small _ (by omega)

/-- `pyCharLower` hits a target character whose code is below 97 and which
is not an upper-case letter only at that character itself. -/
theorem pyCharLower_eq_iff (c d : Char) (hd : d.toNat < 97)
    (hd2 : ¬(65 ≤ d.toNat ∧ d.toNat ≤ 90)) : pyCharLower c = d ↔ c = d := by
  constructor
  · intro hcd
    by_cases hc : 65 ≤ c.toNat ∧ c.toNat ≤ 90
    · exfalso
      have h2 := congrArg Char.toNat hcd
      rw [pyCharLower_toNat_upper c hc] at h2
      omega
    · unfold pyCharLower at hcd
      rw [if_neg hc] at hcd
      exact hcd
  · intro hcd
    subst hcd
    unfold pyCharLower
    rw [if_neg hd2]

/-- Lower-casing commutes with the two separator replacements. -/
theorem lower_chrRepl_comm (c : Char) :
    pyCharLower (pyChrRepl '_' '-' (pyChrRepl '/' '-' c))
      = pyChrRepl '_' '-' (pyChrRepl '/' '-' (pyCharLower c)) := by
  by_cases h1 : c = '/'
  · subst h1; decide
  · by_cases h2 : c = '_'
    · subst h2; decide
    · have hs : pyCharLower c ≠ '/' :=
        fun hcd => h1 ((pyCharLower_eq_iff c '/' (by decide) (by decide)).mp hcd)
      have hu : pyCharLower c ≠ '_' :=
        fun hcd => h2 ((pyCharLower_eq_iff c '_' (by decide) (by decide)).mp hcd)
      simp [pyChrRepl, h1, h2, hs, hu]

/-- Lower-casing the list commutes with both replacement maps. -/
theorem maps_lower_comm :
    ∀ (l : List Char),
      ((l.map (pyChrRepl '/' '-')).map (pyChrRepl '_' '-')).map pyCharLower
        = ((l.map pyCharLower).map (pyChrRepl '/' '-')).map (pyChrRepl '_' '-')
  | [] => rfl
  | c :: t => by
    simp only [List.map_cons]
    rw [maps_lower_comm t, lower_chrRepl_comm c]

/-- Lower-casing commutes with stripping leading slashes (it fixes `/` and
maps nothing else onto it). -/
theorem dropWhile_map_lower (l : List Char) :
    (l.map pyCharLower).dropWhile (· = '/') = (l.dropWhile (· = '/')).map pyCharLower := by
  induction l with
  | nil => simp
  | cons c t ih =>
    simp only [List.map_cons, List.dropWhile_cons]
    by_cases hc : c = '/'
    · subst hc
      have hfix : pyCharLower '/' = '/' := by decide
      simp [hfix, ih]
    · have hne : pyCharLower c ≠ '/' :=
        fun h => hc ((pyCharLower_eq_iff c '/' (by decide) (by decide)).mp h)
      simp [hc, hne]

/-- C4: the container name is pure and deterministic, and it equals the
spec's reading `vibecon-<sanitized>-<hash8>` in which the path is
lower-cased first, then stripped of its leading separator and with `/` and
`_` replaced by `-` (the code performs the same operations in another
order; the two compositions agree on every path), with hash8 the first 8
hex characters of the MD5 of the raw path. -/
theorem C4_container_name (p : String) :
    _generate_container_name p = _generate_container_name p ∧
    _generate_container_name p = nameForSpec p := by
  refine ⟨rfl, ?_⟩
  have hs : pyLower (pyReplaceChar '_' '-' (pyReplaceChar '/' '-' (pyLstrip '/' p)))
      = pyReplaceChar '_' '-' (pyReplaceChar '/' '-' (pyLstrip '/' (pyLower p))) := by
    unfold pyLower pyReplaceChar pyLstrip
    apply congrArg String.mk
    show (((p.data.dropWhile (· = '/')).map (pyChrRepl '/' '-')).map
            (pyChrRepl '_' '-')).map pyCharLower
        = (((p.data.map pyCharLower).dropWhile (· = '/')).map (pyChrRepl '/' '-')).map
            (pyChrRepl '_' '-')
    rw [dropWhile_map_lower, maps_lower_comm]
  simp only [_generate_container_name, nameForSpec]
  rw [hs]

set_option maxRecDepth 16384 in
/-- Pipeline vector: the container name of `/home/u/proj` (hash8 checked
against an independent MD5 implementation). -/
theorem container_name_vector :
    _generate_container_name "/home/u/proj" = "vibecon-home-u-proj-4fafce67" := by decide

/-- `posixpath.normpath` vector. -/
theorem normpath_vector : normpath "a/./b/../c" = "a/c" := by decide

/-- `posixpath.join` + `normpath` vector as the bind branch composes them. -/
theorem join_normpath_vector : normpath (pyJoin "/proj/app" "../lib") = "/proj/lib" := by decide

/-- `posixpath.expanduser` vectors. -/
theorem expanduser_vector :
    expanduser "/root" "~" = "/root" ∧ expanduser "/root" "~/x" = "/root/x" ∧
    expanduser "/root" "/abs" = "/abs" ∧ expanduser "/root" "~other/x" = "~other/x" := by
  refine ⟨by decide, by decide, by decide, by decide⟩

end Vibecon
